import Mathlib

/-!
Shallow embedding of the RAG API service (`src/main.py`): a FastAPI app
exposing CRUD over collections stored as JSON rows in SQLite, document
ingestion into per-collection Chroma vector indexes, and a search endpoint
that forwards to an external API.

Modelling conventions:
* The SQLite table `collections (id TEXT PRIMARY KEY, data JSON)` is a list
  of `(id, data)` pairs in row order; `INSERT` appends, `SELECT ... WHERE
  id = ? ... fetchone()` takes the first match, `DELETE ... WHERE id = ?`
  removes every match (at most one exists, by the primary key).
* The per-collection Chroma persist directories `.chromadb/{cid}` are a
  list of `(cid, chunks)` pairs.
* FastAPI request validation (`Query(..., ge=, le=)`, the required
  `Authorization` header of `get_token`): a failed validation produces the
  framework's default `RequestValidationError` response with status 422 —
  `main.py` installs a custom handler only for `HTTPException`.  FastAPI
  solves the `Depends(get_token)` sub-dependency before validating the
  endpoint's own query parameters, so a present-but-malformed header
  raises 401 before any 422.
* Python floats (`similarity_threshold`, scores) are modelled as `ℚ`; the
  claims only compare them against the exact bounds 0, 1.
* External libraries (PyMuPDF loader, text splitter, the embedding client,
  the external search API) are inputs to the embedded handlers.
-/

set_option autoImplicit false

namespace RagApi

/-- HTTP error raised by a handler or produced by FastAPI request
validation: a status code and a detail message. -/
structure HttpError where
  status : Nat
  detail : String
deriving DecidableEq

/-- The `HTTPException(status_code=401, detail="Invalid authorization header")`
raised by `get_token` (src/main.py:37). -/
def unauthorized401 : HttpError :=
  { status := 401, detail := "Invalid authorization header" }

/-- FastAPI's default response to a `RequestValidationError` (missing or
out-of-bounds request parameters): status 422 with a `detail` list.
`main.py` installs a custom handler only for `HTTPException`, so request
validation failures keep this default status. -/
def validationError422 : HttpError :=
  { status := 422, detail := "request validation error" }

/-- The `HTTPException(status_code=404, detail="Collection not found")`
raised by the collection-existence checks. -/
def notFound404 : HttpError :=
  { status := 404, detail := "Collection not found" }

/-- An unhandled Python exception (`IndexError`, `KeyError`, `TypeError`,
`sqlite3.IntegrityError`) escaping a handler surfaces as a 500 response. -/
def internalError500 : HttpError :=
  { status := 500, detail := "Internal Server Error" }

/-- Python `str.startswith(pre)`: the characters of `pre` are a prefix of
the characters of `s`. -/
def pyStartsWith (s pre : String) : Bool :=
  pre.data.isPrefixOf s.data

/-- Helper for `pySplit`: walk the characters, accumulating the current
(reversed) word, emitting it at each whitespace run boundary. -/
def pySplitAux : List Char → List Char → List String
  | acc, [] => if acc.isEmpty then [] else [String.mk acc.reverse]
  | acc, c :: cs =>
    if c.isWhitespace then
      if acc.isEmpty then pySplitAux [] cs
      else String.mk acc.reverse :: pySplitAux [] cs
    else pySplitAux (c :: acc) cs

/-- Python `str.split()` with no separator: split on runs of whitespace,
producing no empty pieces. -/
def pySplit (s : String) : List String :=
  pySplitAux [] s.data

/-- The `get_token` dependency (src/main.py:35-38) together with FastAPI's
handling of its required `Authorization` header: a missing header is a
request-validation failure (422); a header that does not start with
`"Bearer "` raises 401; for the header `"Bearer "` alone,
`authorization.split()[1]` raises `IndexError` (500); otherwise the second
whitespace-separated piece of the header is the token. -/
def get_token (authorization : Option String) : Except HttpError String :=
  match authorization with
  | none => .error validationError422
  | some a =>
    if pyStartsWith a "Bearer " then
      match pySplit a with
      | _ :: t :: _ => .ok t
      | _ => .error internalError500
    else .error unauthorized401

/-- JSON text of a string value, as `json.dumps` and SQLite `json_extract`
produce it (escaping of special characters inside the string is not
modelled; no claim exercises it). -/
def jsonString (s : String) : String :=
  "\"" ++ s ++ "\""

/-- JSON text of an array of strings (SQLite minified formatting). -/
def jsonArrText (l : List String) : String :=
  "[" ++ String.intercalate "," (l.map jsonString) ++ "]"

/-- JSON text of a string-to-string object (SQLite minified formatting). -/
def jsonObjText (l : List (String × String)) : String :=
  "\x7b" ++
    String.intercalate "," (l.map fun kv => jsonString kv.1 ++ ":" ++ jsonString kv.2) ++
    "\x7d"

/-- The JSON document stored in a `collections` row: exactly the fields
written by `create_collection` — the `CollectionCreate` fields plus the
server-set `id` and `created_at` (an ISO-8601 timestamp, kept as the string
`json.dumps` stores). -/
structure CollectionData where
  id : String
  name : String
  authors : List String
  created_at : String
  extraction_strategy : List (String × String)
  embedding_model : String
deriving DecidableEq

/-- Request body of `POST /v1/collections` (`CollectionCreate`,
src/main.py:71-76): all fields required. -/
structure CollectionCreate where
  name : String
  authors : List String
  extraction_strategy : List (String × String)
  embedding_model : String
deriving DecidableEq

/-- Request body of `PATCH /v1/collections/{id}` (`CollectionUpdate`,
src/main.py:78-84): every field optional, defaulting to null.  There is no
`id` or `created_at` field. -/
structure CollectionUpdate where
  name : Option String := none
  authors : Option (List String) := none
  extraction_strategy : Option (List (String × String)) := none
  embedding_model : Option String := none
deriving DecidableEq

/-- A metadata value attached to a chunk: PyMuPDF page numbers are ints,
the provenance tags are strings. -/
inductive MetaVal where
  | int : Int → MetaVal
  | str : String → MetaVal
deriving DecidableEq

/-- A langchain document (chunk): page content plus a metadata dict,
modelled as an association list in insertion order. -/
structure Document where
  pageContent : String
  metadata : List (String × MetaVal)
deriving DecidableEq

/-- Persistent state of the service: the SQLite `collections` table in row
order, and the per-collection Chroma indexes (`.chromadb/{cid}`) with
their chunks in insertion order. -/
structure AppState where
  collections : List (String × CollectionData)
  chroma : List (String × List Document)
deriving DecidableEq

/-- First value stored under a key in an association list
(`SELECT ... WHERE id = ? ... fetchone()`; Python dict lookup). -/
def alookup {β : Type} (k : String) : List (String × β) → Option β
  | [] => none
  | kv :: rest => if kv.1 = k then some kv.2 else alookup k rest

/-- SQLite `json_extract(data, '$.field')` on a stored collection row, as
the TEXT it is compared with: string fields yield the string itself, the
array/object fields yield their JSON text, an absent path yields NULL
(`none`), which never compares equal to a bound parameter. -/
def jsonExtract (c : CollectionData) (field : String) : Option String :=
  if field = "id" then some c.id
  else if field = "name" then some c.name
  else if field = "authors" then some (jsonArrText c.authors)
  else if field = "created_at" then some c.created_at
  else if field = "extraction_strategy" then some (jsonObjText c.extraction_strategy)
  else if field = "embedding_model" then some c.embedding_model
  else none

/-- The WHERE clause built by `list_collections` (src/main.py:114-116): one
`json_extract(data, '$.k') = ?` conjunct per entry of the `filters` dict. -/
def matchesFilters (filters : List (String × String)) (c : CollectionData) : Bool :=
  filters.all fun kv => jsonExtract c kv.1 = some kv.2

/-- The rows matching the filters, in table order: the sequence the
LIMIT/OFFSET window is cut from. -/
def filteredCollections (s : AppState) (filters : List (String × String)) :
    List CollectionData :=
  (s.collections.map Prod.snd).filter (matchesFilters filters)

/-- Response of `GET /v1/collections`. -/
structure ListResponse where
  collections : List CollectionData
  total : Nat
deriving DecidableEq

/-- The `list_collections` handler (src/main.py:102-134) on the `sort=None`
path (the ORDER BY branch only reorders the filtered rows and no claim
concerns the order): `offset = (page - 1) * per_page`, rows filtered by the
WHERE clause, `LIMIT per_page OFFSET offset`, and `total` taken from an
unfiltered `SELECT COUNT(*) FROM collections`.  The FastAPI bounds
(`page ≥ 1`, `1 ≤ per_page ≤ 100`) appear as hypotheses of the theorems. -/
def list_collections (s : AppState) (page per_page : Nat)
    (filters : List (String × String)) : ListResponse :=
  { collections :=
      ((filteredCollections s filters).drop ((page - 1) * per_page)).take per_page
    total := s.collections.length }

/-- The `get_collection` handler (src/main.py:136-142): the first row with
the requested id, or 404 when there is none. -/
def get_collection (s : AppState) (collection_id : String) :
    Except HttpError CollectionData :=
  match alookup collection_id s.collections with
  | none => .error notFound404
  | some d => .ok d

/-- The `create_collection` handler (src/main.py:144-155): the server picks
a fresh UUID and a timestamp (parameters here), stores the input fields
plus `id` and `created_at` as a new row, and returns the stored document
(201).  An `INSERT` whose id collides with an existing row violates the
primary key (`sqlite3.IntegrityError`, an unhandled 500). -/
def create_collection (s : AppState) (collection : CollectionCreate)
    (collection_id created_at : String) :
    Except HttpError (AppState × CollectionData) :=
  let data : CollectionData :=
    { id := collection_id
      name := collection.name
      authors := collection.authors
      created_at := created_at
      extraction_strategy := collection.extraction_strategy
      embedding_model := collection.embedding_model }
  if s.collections.any fun kv => kv.1 = collection_id then .error internalError500
  else .ok ({ s with collections := s.collections ++ [(collection_id, data)] }, data)

/-- The merge performed by `update_collection` (src/main.py:165):
`data.update({k: v for k, v in update_data.model_dump().items() if v is not None})`.
`model_dump` emits exactly the four `CollectionUpdate` fields, so `id` and
`created_at` are never among the updated keys. -/
def applyUpdate (d : CollectionData) (u : CollectionUpdate) : CollectionData :=
  { d with
    name := u.name.getD d.name
    authors := u.authors.getD d.authors
    extraction_strategy := u.extraction_strategy.getD d.extraction_strategy
    embedding_model := u.embedding_model.getD d.embedding_model }

/-- The `update_collection` handler (src/main.py:157-170): 404 when the row
is missing, else merge the non-null update fields into the stored JSON,
write it back under the same id, and return the merged document. -/
def update_collection (s : AppState) (collection_id : String)
    (update_data : CollectionUpdate) :
    Except HttpError (AppState × CollectionData) :=
  match alookup collection_id s.collections with
  | none => .error notFound404
  | some d =>
    let merged := applyUpdate d update_data
    .ok ({ s with collections := s.collections.map fun kv =>
            if kv.1 = collection_id then (kv.1, merged) else kv },
         merged)

/-- The `delete_collection` handler (src/main.py:172-178):
`DELETE FROM collections WHERE id = ?`; 404 when `rowcount` is 0, else 204.
Only the SQLite row is removed — the handler never touches the
`.chromadb/{collection_id}` index. -/
def delete_collection (s : AppState) (collection_id : String) :
    Except HttpError AppState :=
  if s.collections.any fun kv => kv.1 = collection_id then
    .ok { s with collections := s.collections.filter fun kv => kv.1 ≠ collection_id }
  else .error notFound404

/-- Chunks currently persisted in `.chromadb/{cid}` (empty when the
directory does not exist). -/
def chromaChunks (s : AppState) (cid : String) : List Document :=
  (alookup cid s.chroma).getD []

/-- `Chroma.from_documents(..., persist_directory=f".chromadb/{cid}",
collection_name=cid)` (src/main.py:203-208): append the new chunks to the
collection's persisted index, creating the directory when absent. -/
def chromaAppend (ch : List (String × List Document)) (cid : String)
    (docs : List Document) : List (String × List Document) :=
  if ch.any fun kv => kv.1 = cid then
    ch.map fun kv => if kv.1 = cid then (kv.1, kv.2 ++ docs) else kv
  else ch ++ [(cid, docs)]

/-- The metadata update at src/main.py:201:
`doc.metadata.update({"key": file.filename, "h1": f"{file.filename} p{doc.metadata['page'] + 1}"})`.
A Python dict update keeps an existing key's position and replaces its
value; only lookup results matter here, so re-binding the two updated keys
after the untouched entries is lookup-equivalent. -/
def tagMeta (filename : String) (p : Int) (m : List (String × MetaVal)) :
    List (String × MetaVal) :=
  (m.filter fun kv => kv.1 ≠ "key" ∧ kv.1 ≠ "h1") ++
    [("key", .str filename), ("h1", .str (filename ++ " p" ++ toString (p + 1)))]

/-- One chunk tagged by the loop at src/main.py:200-201.
`doc.metadata['page'] + 1` requires an int under the key `"page"` (PyMuPDF
sets it); a missing or non-int value raises (`KeyError`/`TypeError`). -/
def tagDocument (filename : String) (d : Document) : Option Document :=
  match alookup "page" d.metadata with
  | some (.int p) => some { d with metadata := tagMeta filename p d.metadata }
  | _ => none

/-- Response of `POST /v1/collections/{id}/documents`
(`DocumentResponse`, src/main.py:86-89). -/
structure DocumentResponse where
  file_id : String
  file_name : String
  status : String
deriving DecidableEq

/-- The `add_document` handler (src/main.py:180-212).  The
`Depends(get_token)` auth step runs first, then the collection row is
fetched (404 when absent); its `embedding_model` configures the embedding
client, an external call not modelled further.  The PDF loader and the
text splitter are external libraries: their output is the `docs` argument.
Each chunk is tagged with provenance metadata (a chunk without an int
`"page"` raises, 500) and the tagged chunks are upserted into the
collection's Chroma index.  The fresh `file_id` UUID is a parameter. -/
def add_document (s : AppState) (collection_id : String)
    (authorization : Option String) (filename : String) (docs : List Document)
    (file_id : String) : Except HttpError (AppState × DocumentResponse) :=
  match get_token authorization with
  | .error e => .error e
  | .ok _token =>
    match alookup collection_id s.collections with
    | none => .error notFound404
    | some _ =>
      match docs.mapM (tagDocument filename) with
      | none => .error internalError500
      | some tagged =>
        .ok ({ s with chroma := chromaAppend s.chroma collection_id tagged },
             { file_id := file_id, file_name := filename, status := "processed" })

/-- The `delete_document` handler (src/main.py:214-228).  Auth, then a 404
check on the collection row; then
`shutil.rmtree(f".chromadb/{collection_id}", ignore_errors=True)` removes
the whole per-collection index — the `file_id` path parameter is never
consulted — and the handler returns 204. -/
def delete_document (s : AppState) (collection_id : String) (file_id : String)
    (authorization : Option String) : Except HttpError AppState :=
  match get_token authorization with
  | .error e => .error e
  | .ok _token =>
    match alookup collection_id s.collections with
    | none => .error notFound404
    | some _ =>
      .ok { s with chroma := s.chroma.filter fun kv => kv.1 ≠ collection_id }

/-- A search hit inside the response forwarded back to the client
(`SearchResult`, src/main.py:91-95). -/
structure SearchResult where
  document_id : String
  text : String
  score : ℚ
  metadata : List (String × String)
deriving DecidableEq

/-- Response of `GET /v1/collections/{id}/search`
(`SearchResponse`, src/main.py:97-100). -/
structure SearchResponse where
  results : List SearchResult
  total : Nat
  processing_time : String
deriving DecidableEq

/-- Status and body with which the external search API
(`https://external-api.com/v1/collections/{cid}/search`) answers the
forwarded request. -/
structure ExtResponse where
  status : Nat
  body : SearchResponse
deriving DecidableEq

/-- Query parameters of `vector_search` with their FastAPI declarations
(src/main.py:234-238): `q` (required, `min_length=1`), `n` in [1,100]
(default 10), optional `rerank_strategy`, `similarity_threshold` in [0,1]
(default 0.7), `fuzzy` (default false). -/
structure SearchParams where
  q : String
  n : Int := 10
  rerank_strategy : Option String := none
  similarity_threshold : ℚ := 7/10
  fuzzy : Bool := false
deriving DecidableEq

/-- Does a request satisfy FastAPI's declared parameter bounds for
`vector_search`?  Violations produce the default 422 validation
response. -/
def searchParamsValid (p : SearchParams) : Bool :=
  1 ≤ p.q.length ∧ 1 ≤ p.n ∧ p.n ≤ 100 ∧
    0 ≤ p.similarity_threshold ∧ p.similarity_threshold ≤ 1

/-- The `vector_search` handler (src/main.py:231-249).  FastAPI solves the
`Depends(get_token)` sub-dependency first (missing header 422, malformed
header 401), then validates the query parameters (422 on violation).  The
handler body never consults the local collection store: it forwards the
request to the external API with the bearer token, and `forward_request`
(src/main.py:40-46) re-raises any external status ≥ 400 as an
`HTTPException` with that status (its detail is the external JSON body,
abbreviated here) and otherwise returns the external body. -/
def vector_search (s : AppState) (collection_id : String)
    (authorization : Option String) (p : SearchParams) (ext : ExtResponse) :
    Except HttpError SearchResponse :=
  match get_token authorization with
  | .error e => .error e
  | .ok _token =>
    if searchParamsValid p then
      if ext.status ≥ 400 then .error { status := ext.status, detail := "external error" }
      else .ok ext.body
    else .error validationError422

/-- A sample collection-create request body. -/
def exCreate : CollectionCreate :=
  { name := "T", authors := ["A"], extraction_strategy := [("pdf", "x")],
    embedding_model := "m" }

/-- A sample stored collection document. -/
def exCollection : CollectionData :=
  { id := "c1", name := "T", authors := ["A"],
    created_at := "2024-01-01T00:00:00+00:00",
    extraction_strategy := [("pdf", "x")], embedding_model := "m" }

/-- A sample ingested chunk, with the metadata PyMuPDF attaches. -/
def exChunk : Document :=
  { pageContent := "the quick brown fox",
    metadata := [("source", .str "/tmp/t.pdf"), ("page", .int 0)] }

/-- A sample service state: one collection with one ingested chunk. -/
def exState : AppState :=
  { collections := [("c1", exCollection)], chroma := [("c1", [exChunk])] }

/-- A sample valid search request (the threshold is set to the in-bounds
literal 1 so that the sample reduces by evaluation). -/
def exParams : SearchParams :=
  { q := "fox", similarity_threshold := 1 }

/-- A sample successful answer of the external search API. -/
def exExt : ExtResponse :=
  { status := 200,
    body := { results := [], total := 0, processing_time := "0.1s" } }

/-- The literal state left behind by `delete_collection exState "c1"`. -/
def exStateAfterDelete : AppState :=
  { collections := [], chroma := [("c1", [exChunk])] }

/-- A sample partial update touching only `name`. -/
def exUpdate : CollectionUpdate :=
  { name := some "T2" }

/-- Association-list lookup distributes over append when the key misses the
left part. -/
theorem alookup_append_left_none {β : Type} (k : String) {l1 : List (String × β)}
    (l2 : List (String × β)) (h : alookup k l1 = none) :
    alookup k (l1 ++ l2) = alookup k l2 := by
  induction l1 with
  | nil => simp
  | cons kv rest ih =>
    simp only [alookup, List.cons_append] at h ⊢
    by_cases hk : kv.1 = k
    · simp [hk] at h
    · simp only [hk, if_false] at h ⊢
      exact ih h

/-- Association-list lookup distributes over append when the key hits the
left part. -/
theorem alookup_append_left_some {β : Type} (k : String) {l1 : List (String × β)}
    (l2 : List (String × β)) {v : β} (h : alookup k l1 = some v) :
    alookup k (l1 ++ l2) = some v := by
  induction l1 with
  | nil => simp [alookup] at h
  | cons kv rest ih =>
    simp only [alookup, List.cons_append] at h ⊢
    by_cases hk : kv.1 = k
    · simpa [hk] using h
    · simp only [hk, if_false] at h ⊢
      exact ih h

/-- Lookup misses in a filtered list whose predicate rejects every entry
with the looked-up key. -/
theorem alookup_filter_false {β : Type} (k : String) (p : String × β → Bool)
    (l : List (String × β)) (h : ∀ v : β, p (k, v) = false) :
    alookup k (l.filter p) = none := by
  induction l with
  | nil => rfl
  | cons kv rest ih =>
    obtain ⟨a, v⟩ := kv
    rw [List.filter_cons]
    split
    · next hp =>
      have hk : ¬ a = k := by
        intro hk1
        rw [hk1, h v] at hp
        exact Bool.false_ne_true hp
      simpa [alookup, hk] using ih
    · exact ih

/-- Lookup is unchanged by a filter whose predicate keeps every entry with
the looked-up key. -/
theorem alookup_filter_true {β : Type} (k : String) (p : String × β → Bool)
    (l : List (String × β)) (h : ∀ v : β, p (k, v) = true) :
    alookup k (l.filter p) = alookup k l := by
  induction l with
  | nil => rfl
  | cons kv rest ih =>
    obtain ⟨a, v⟩ := kv
    rw [List.filter_cons]
    by_cases hk : a = k
    · rw [hk, h v]
      simp [alookup, ih]
    · by_cases hp : p (a, v) = true <;> simp [hp, alookup, hk, ih]

/-- A successful lookup means some row carries the key. -/
theorem any_key_true_of_alookup_some {β : Type} {k : String}
    {l : List (String × β)} {v : β} (h : alookup k l = some v) :
    (l.any fun kv => kv.1 = k) = true := by
  induction l with
  | nil => simp [alookup] at h
  | cons kv rest ih =>
    simp only [alookup] at h
    by_cases hk : kv.1 = k
    · simp [List.any_cons, hk]
    · simp only [hk, if_false] at h
      simp [List.any_cons, ih h]

/-- A failed lookup means no row carries the key. -/
theorem any_key_false_of_alookup_none {β : Type} {k : String}
    {l : List (String × β)} (h : alookup k l = none) :
    (l.any fun kv => kv.1 = k) = false := by
  induction l with
  | nil => rfl
  | cons kv rest ih =>
    simp only [alookup] at h
    by_cases hk : kv.1 = k
    · simp [hk] at h
    · simp only [hk, if_false] at h
      simp [List.any_cons, hk, ih h]

/-- Concatenating the windows `[i*n, i*n + n)` for `i < k` restores a list
of length at most `k * n` (the offset-pagination partition fact). -/
theorem join_window_chunks {α : Type} (n : Nat) (hn : 0 < n) :
    ∀ (k : Nat) (l : List α), l.length ≤ k * n →
      ((List.range k).map fun i => (l.drop (i * n)).take n).flatten = l := by
  intro k
  induction k with
  | zero =>
    intro l hl
    have hl0 : l = [] := List.eq_nil_of_length_eq_zero (Nat.le_zero.mp (by simpa using hl))
    simp [hl0]
  | succ k ih =>
    intro l hl
    rw [List.range_succ_eq_map, List.map_cons, List.flatten_cons, List.map_map]
    have hmap : ((List.range k).map ((fun i => (l.drop (i * n)).take n) ∘ Nat.succ))
        = (List.range k).map fun i => (((l.drop n).drop (i * n)).take n) := by
      refine List.map_congr_left fun i _ => ?_
      have hdrop : (l.drop n).drop (i * n) = l.drop (Nat.succ i * n) := by
        rw [List.drop_drop, Nat.succ_mul, Nat.add_comm]
      simp [Function.comp, hdrop]
    rw [hmap, ih (l.drop n) (by
      rw [List.length_drop]
      rw [Nat.succ_mul] at hl
      exact Nat.sub_le_iff_le_add.mpr hl)]
    simp [List.take_append_drop]

/-- After tagging, the chunk's metadata holds the source file name under
`"key"`. -/
theorem tagMeta_lookup_key (filename : String) (p : Int)
    (m : List (String × MetaVal)) :
    alookup "key" (tagMeta filename p m) = some (.str filename) := by
  unfold tagMeta
  rw [alookup_append_left_none "key" _ (alookup_filter_false _ _ _ fun v => by simp)]
  simp [alookup]

/-- After tagging, the chunk's metadata holds the page label under
`"h1"`. -/
theorem tagMeta_lookup_h1 (filename : String) (p : Int)
    (m : List (String × MetaVal)) :
    alookup "h1" (tagMeta filename p m)
      = some (.str (filename ++ " p" ++ toString (p + 1))) := by
  unfold tagMeta
  rw [alookup_append_left_none "h1" _ (alookup_filter_false _ _ _ fun v => by simp)]
  simp [alookup]

/-- Tagging preserves the loader-assigned `"page"` metadata entry. -/
theorem tagMeta_lookup_page (filename : String) (p : Int)
    (m : List (String × MetaVal)) :
    alookup "page" (tagMeta filename p m) = alookup "page" m := by
  unfold tagMeta
  have hfilter : alookup "page" (m.filter fun kv => kv.1 ≠ "key" ∧ kv.1 ≠ "h1")
      = alookup "page" m := alookup_filter_true _ _ _ fun v => by simp
  cases hm : alookup "page" m with
  | none =>
    rw [alookup_append_left_none _ _ (hfilter.trans hm)]
    simp [alookup]
  | some v =>
    exact alookup_append_left_some _ _ (hfilter.trans hm)

/-- Claim C1, counterexample: deleting collection `"c1"` from a state where
it has one ingested chunk succeeds, and a subsequent GET returns 404 — but
the collection's vector index with its chunk survives unchanged in the
chroma state, so the claimed cascade to the vector index and document
chunks does not happen. -/
theorem c1_counterexample :
    delete_collection exState "c1" = .ok exStateAfterDelete ∧
    get_collection exStateAfterDelete "c1" = .error notFound404 ∧
    chromaChunks exStateAfterDelete "c1" = [exChunk] ∧
    ([exChunk] : List Document) ≠ [] := by
  refine ⟨rfl, rfl, rfl, by decide⟩

/-- Claim C1, amended: for every collection id present in the store, DELETE
succeeds (204) and removes the collection row, so a subsequent GET returns
404 — but the collection's vector index and ingested chunks are not
removed: the chroma state is exactly unchanged. -/
theorem c1_delete_removes_row_not_index (s : AppState) (cid : String)
    (c : CollectionData) (h : alookup cid s.collections = some c) :
    ∃ s2 : AppState, delete_collection s cid = .ok s2 ∧
      get_collection s2 cid = .error notFound404 ∧
      s2.chroma = s.chroma := by
  refine ⟨{ s with collections := s.collections.filter fun kv => kv.1 ≠ cid },
    ?_, ?_, rfl⟩
  · simp [delete_collection, any_key_true_of_alookup_some h]
  · have hnone : alookup cid (s.collections.filter fun kv => kv.1 ≠ cid) = none :=
      alookup_filter_false cid _ _ fun v => by simp
    simp only [get_collection]
    rw [hnone]

/-- Claim C1, witness for the amended theorem at the sample state. -/
theorem c1_witness :
    alookup "c1" exState.collections = some exCollection ∧
    ∃ s2 : AppState, delete_collection exState "c1" = .ok s2 ∧
      get_collection s2 "c1" = .error notFound404 ∧
      s2.chroma = exState.chroma :=
  ⟨rfl, c1_delete_removes_row_not_index exState "c1" exCollection rfl⟩

/-- Claim C2, code evaluation: search requests with `n=0`, `n=101` or
`similarity_threshold=2` are rejected by FastAPI request validation with
its default status 422 — not the 400 with field-level `errors` that the
claim and the repository's own test
(`test_search_with_invalid_parameters`) expect — because `main.py`
installs the error-envelope handler only for `HTTPException`, not for
`RequestValidationError`. -/
theorem c2_out_of_bounds_params_get_422 :
    vector_search exState "c1" (some "Bearer tok") { q := "test", n := 0 } exExt
      = .error validationError422 ∧
    vector_search exState "c1" (some "Bearer tok") { q := "test", n := 101 } exExt
      = .error validationError422 ∧
    vector_search exState "c1" (some "Bearer tok")
        { q := "test", similarity_threshold := 2 } exExt
      = .error validationError422 ∧
    validationError422.status = 422 ∧ validationError422.status ≠ 400 := by
  refine ⟨rfl, rfl, rfl, rfl, by decide⟩

/-- Claim C3, code evaluation: a search for a collection id absent from the
store does not fail with 404 — the handler never consults the store (its
result is identical for every store state) and simply mirrors the external
API's answer, here a 200 with the external body. -/
theorem c3_search_skips_existence_check :
    alookup "missing" exState.collections = none ∧
    vector_search exState "missing" (some "Bearer tok") exParams exExt
      = .ok exExt.body ∧
    ∀ s1 s2 : AppState,
      vector_search s1 "missing" (some "Bearer tok") exParams exExt
        = vector_search s2 "missing" (some "Bearer tok") exParams exExt := by
  exact ⟨rfl, rfl, fun s1 s2 => rfl⟩

/-- Claim C4, counterexample: a request with no `Authorization` header at
all is rejected by FastAPI's validation of the required header with status
422, not 401, on every auth-requiring endpoint. -/
theorem c4_counterexample :
    get_token none = .error validationError422 ∧
    vector_search exState "c1" none exParams exExt = .error validationError422 ∧
    add_document exState "c1" none "t.pdf" [exChunk] "f1" = .error validationError422 ∧
    delete_document exState "c1" "f1" none = .error validationError422 ∧
    validationError422.status = 422 ∧ validationError422.status ≠ 401 := by
  refine ⟨rfl, rfl, rfl, rfl, rfl, by decide⟩

/-- Claim C4, amended: a request to an auth-requiring endpoint (search, add
document, delete document) whose `Authorization` header is present but
does not start with `"Bearer "` is rejected with 401 Unauthorized; a
request with the header missing entirely is instead rejected by request
validation with 422. -/
theorem c4_auth_header_statuses (s : AppState) (cid fid fname : String)
    (docs : List Document) (p : SearchParams) (ext : ExtResponse) (a : String)
    (h : pyStartsWith a "Bearer " = false) :
    vector_search s cid (some a) p ext = .error unauthorized401 ∧
    add_document s cid (some a) fname docs fid = .error unauthorized401 ∧
    delete_document s cid fid (some a) = .error unauthorized401 ∧
    vector_search s cid none p ext = .error validationError422 ∧
    add_document s cid none fname docs fid = .error validationError422 ∧
    delete_document s cid fid none = .error validationError422 ∧
    unauthorized401.status = 401 := by
  have hg : get_token (some a) = .error unauthorized401 := by
    simp [get_token, h]
  refine ⟨?_, ?_, ?_, rfl, rfl, rfl, rfl⟩ <;>
    simp [vector_search, add_document, delete_document, hg]

/-- Claim C4, witness for the amended theorem at a Basic-auth header. -/
theorem c4_witness :
    pyStartsWith "Basic abc" "Bearer " = false ∧
    (vector_search exState "c1" (some "Basic abc") exParams exExt
        = .error unauthorized401 ∧
      add_document exState "c1" (some "Basic abc") "t.pdf" [exChunk] "f1"
        = .error unauthorized401 ∧
      delete_document exState "c1" "f1" (some "Basic abc")
        = .error unauthorized401 ∧
      vector_search exState "c1" none exParams exExt = .error validationError422 ∧
      add_document exState "c1" none "t.pdf" [exChunk] "f1"
        = .error validationError422 ∧
      delete_document exState "c1" "f1" none = .error validationError422 ∧
      unauthorized401.status = 401) :=
  ⟨rfl, c4_auth_header_statuses exState "c1" "f1" "t.pdf" [exChunk] exParams exExt
    "Basic abc" rfl⟩

/-- Claim C5: creating a collection under a fresh id and then fetching it
by that id returns the stored document, whose fields equal the input
except for the server-assigned `id` and `created_at`. -/
theorem c5_create_then_get (s : AppState) (input : CollectionCreate)
    (gid ts : String) (h : alookup gid s.collections = none) :
    ∃ (s2 : AppState) (d : CollectionData),
      create_collection s input gid ts = .ok (s2, d) ∧
      get_collection s2 gid = .ok d ∧
      d.name = input.name ∧ d.authors = input.authors ∧
      d.extraction_strategy = input.extraction_strategy ∧
      d.embedding_model = input.embedding_model ∧
      d.id = gid ∧ d.created_at = ts := by
  have hany := any_key_false_of_alookup_none h
  refine ⟨{ s with collections := s.collections ++
      [(gid, { id := gid, name := input.name, authors := input.authors,
               created_at := ts,
               extraction_strategy := input.extraction_strategy,
               embedding_model := input.embedding_model })] },
    { id := gid, name := input.name, authors := input.authors,
      created_at := ts, extraction_strategy := input.extraction_strategy,
      embedding_model := input.embedding_model },
    ?_, ?_, rfl, rfl, rfl, rfl, rfl, rfl⟩
  · simp [create_collection, hany]
  · have hget : alookup gid (s.collections ++
        [(gid, { id := gid, name := input.name, authors := input.authors,
                 created_at := ts,
                 extraction_strategy := input.extraction_strategy,
                 embedding_model := input.embedding_model })]) = some
        { id := gid, name := input.name, authors := input.authors,
          created_at := ts, extraction_strategy := input.extraction_strategy,
          embedding_model := input.embedding_model } := by
      rw [alookup_append_left_none gid _ h]
      simp [alookup]
    simp only [get_collection]
    rw [hget]

/-- Claim C5, witness at the sample state with a fresh id. -/
theorem c5_witness :
    alookup "c2" exState.collections = none ∧
    ∃ (s2 : AppState) (d : CollectionData),
      create_collection exState exCreate "c2" "2024-02-02T00:00:00+00:00"
        = .ok (s2, d) ∧
      get_collection s2 "c2" = .ok d ∧
      d.name = exCreate.name ∧ d.authors = exCreate.authors ∧
      d.extraction_strategy = exCreate.extraction_strategy ∧
      d.embedding_model = exCreate.embedding_model ∧
      d.id = "c2" ∧ d.created_at = "2024-02-02T00:00:00+00:00" :=
  ⟨rfl, c5_create_then_get exState exCreate "c2" "2024-02-02T00:00:00+00:00" rfl⟩

/-- Claim C6: PATCH on a stored collection merges exactly the non-null
fields of the update body into the stored document: a null field keeps its
previous value, a non-null field takes the supplied value, and the
immutable `id` and `created_at` — which the update body cannot even carry —
are always preserved. -/
theorem c6_update_merges_nonnull (s : AppState) (cid : String)
    (d : CollectionData) (u : CollectionUpdate)
    (h : alookup cid s.collections = some d) :
    ∃ s2 : AppState, update_collection s cid u = .ok (s2, applyUpdate d u) ∧
      (applyUpdate d u).id = d.id ∧
      (applyUpdate d u).created_at = d.created_at ∧
      (u.name = none → (applyUpdate d u).name = d.name) ∧
      (∀ v, u.name = some v → (applyUpdate d u).name = v) ∧
      (u.authors = none → (applyUpdate d u).authors = d.authors) ∧
      (∀ v, u.authors = some v → (applyUpdate d u).authors = v) ∧
      (u.extraction_strategy = none →
        (applyUpdate d u).extraction_strategy = d.extraction_strategy) ∧
      (∀ v, u.extraction_strategy = some v →
        (applyUpdate d u).extraction_strategy = v) ∧
      (u.embedding_model = none →
        (applyUpdate d u).embedding_model = d.embedding_model) ∧
      (∀ v, u.embedding_model = some v → (applyUpdate d u).embedding_model = v) := by
  refine ⟨{ s with collections := s.collections.map fun kv =>
      if kv.1 = cid then (kv.1, applyUpdate d u) else kv },
    ?_, rfl, rfl, ?_, ?_, ?_, ?_, ?_, ?_, ?_, ?_⟩
  · simp only [update_collection]
    rw [h]
  · intro hv; simp [applyUpdate, hv]
  · intro v hv; simp [applyUpdate, hv]
  · intro hv; simp [applyUpdate, hv]
  · intro v hv; simp [applyUpdate, hv]
  · intro hv; simp [applyUpdate, hv]
  · intro v hv; simp [applyUpdate, hv]
  · intro hv; simp [applyUpdate, hv]
  · intro v hv; simp [applyUpdate, hv]

/-- Claim C6, witness: renaming the sample collection. -/
theorem c6_witness :
    alookup "c1" exState.collections = some exCollection ∧
    ∃ s2 : AppState, update_collection exState "c1" exUpdate
        = .ok (s2, applyUpdate exCollection exUpdate) ∧
      (applyUpdate exCollection exUpdate).id = exCollection.id ∧
      (applyUpdate exCollection exUpdate).created_at = exCollection.created_at ∧
      (exUpdate.name = none →
        (applyUpdate exCollection exUpdate).name = exCollection.name) ∧
      (∀ v, exUpdate.name = some v →
        (applyUpdate exCollection exUpdate).name = v) ∧
      (exUpdate.authors = none →
        (applyUpdate exCollection exUpdate).authors = exCollection.authors) ∧
      (∀ v, exUpdate.authors = some v →
        (applyUpdate exCollection exUpdate).authors = v) ∧
      (exUpdate.extraction_strategy = none →
        (applyUpdate exCollection exUpdate).extraction_strategy
          = exCollection.extraction_strategy) ∧
      (∀ v, exUpdate.extraction_strategy = some v →
        (applyUpdate exCollection exUpdate).extraction_strategy = v) ∧
      (exUpdate.embedding_model = none →
        (applyUpdate exCollection exUpdate).embedding_model
          = exCollection.embedding_model) ∧
      (∀ v, exUpdate.embedding_model = some v →
        (applyUpdate exCollection exUpdate).embedding_model = v) :=
  ⟨rfl, c6_update_merges_nonnull exState "c1" exCollection exUpdate rfl⟩

/-- Claim C7: with a positive page size, every page returned by
`list_collections` holds at most `per_page` rows, the page is the window of
the filtered rows at offset `(page-1)*per_page`, and the concatenation of
pages `1..k` — for any `k` whose pages cover the filtered rows — is exactly
the filtered sequence, so each matching collection appears exactly once
across pages. -/
theorem c7_pagination_partition (s : AppState)
    (filters : List (String × String)) (per_page : Nat) (h : 0 < per_page) :
    (∀ page, (list_collections s page per_page filters).collections.length
        ≤ per_page) ∧
    (∀ page, (list_collections s page per_page filters).collections =
      ((filteredCollections s filters).drop ((page - 1) * per_page)).take
        per_page) ∧
    ∀ k, (filteredCollections s filters).length ≤ k * per_page →
      ((List.range k).map fun i =>
          (list_collections s (i + 1) per_page filters).collections).flatten
        = filteredCollections s filters := by
  refine ⟨fun page => List.length_take_le _ _, fun page => rfl, fun k hk => ?_⟩
  have hmap : ((List.range k).map fun i =>
        (list_collections s (i + 1) per_page filters).collections)
      = (List.range k).map fun i =>
          ((filteredCollections s filters).drop (i * per_page)).take per_page := by
    refine List.map_congr_left fun i _ => ?_
    simp [list_collections]
  rw [hmap]
  exact join_window_chunks per_page h k _ hk

/-- Claim C7, witness at the sample state with page size 1 and no
filters. -/
theorem c7_witness :
    0 < 1 ∧
    ((∀ page, (list_collections exState page 1 []).collections.length ≤ 1) ∧
     (∀ page, (list_collections exState page 1 []).collections =
       ((filteredCollections exState []).drop ((page - 1) * 1)).take 1) ∧
     ∀ k, (filteredCollections exState []).length ≤ k * 1 →
       ((List.range k).map fun i =>
           (list_collections exState (i + 1) 1 []).collections).flatten
         = filteredCollections exState []) :=
  ⟨Nat.one_pos, c7_pagination_partition exState [] 1 Nat.one_pos⟩

/-- Claim C8: ingesting a file into an existing collection tags every
upserted chunk with provenance metadata — the source file name under
`"key"`, the loader's page number preserved under `"page"`, and the page
label `"{file} p{page+1}"` under `"h1"` — before the chunks are appended
to the collection's vector index. -/
theorem c8_chunks_carry_provenance (s : AppState) (cid : String)
    (c : CollectionData) (auth : Option String) (tok fname fid : String)
    (docs : List Document)
    (hauth : get_token auth = .ok tok)
    (hcol : alookup cid s.collections = some c)
    (hpages : ∀ d ∈ docs, ∃ p : Int, alookup "page" d.metadata = some (.int p)) :
    ∃ tagged : List Document,
      docs.mapM (tagDocument fname) = some tagged ∧
      add_document s cid auth fname docs fid =
        .ok ({ s with chroma := chromaAppend s.chroma cid tagged },
             { file_id := fid, file_name := fname, status := "processed" }) ∧
      ∀ d2 ∈ tagged,
        alookup "key" d2.metadata = some (.str fname) ∧
        ∃ p : Int, alookup "page" d2.metadata = some (.int p) ∧
          alookup "h1" d2.metadata
            = some (.str (fname ++ " p" ++ toString (p + 1))) := by
  have main : ∀ l : List Document,
      (∀ d ∈ l, ∃ p : Int, alookup "page" d.metadata = some (.int p)) →
      ∃ tagged : List Document,
        l.mapM (tagDocument fname) = some tagged ∧
        ∀ d2 ∈ tagged,
          alookup "key" d2.metadata = some (.str fname) ∧
          ∃ p : Int, alookup "page" d2.metadata = some (.int p) ∧
            alookup "h1" d2.metadata
              = some (.str (fname ++ " p" ++ toString (p + 1))) := by
    intro l
    induction l with
    | nil => exact fun _ => ⟨[], rfl, by simp⟩
    | cons d ds ih =>
      intro hl
      obtain ⟨p, hp⟩ := hl d (by simp)
      obtain ⟨tagged, htag, hprov⟩ := ih fun d2 hd2 => hl d2 (by simp [hd2])
      refine ⟨{ d with metadata := tagMeta fname p d.metadata } :: tagged, ?_, ?_⟩
      · have hd : tagDocument fname d
            = some { d with metadata := tagMeta fname p d.metadata } := by
          simp [tagDocument, hp]
        rw [List.mapM_cons, hd, htag]
        rfl
      · intro d2 hd2
        rcases List.mem_cons.mp hd2 with h2 | h2
        · subst h2
          exact ⟨tagMeta_lookup_key fname p d.metadata, p,
            by rw [tagMeta_lookup_page]; exact hp,
            tagMeta_lookup_h1 fname p d.metadata⟩
        · exact hprov d2 h2
  obtain ⟨tagged, htag, hprov⟩ := main docs hpages
  refine ⟨tagged, htag, ?_, hprov⟩
  simp only [add_document]
  rw [hauth, hcol, htag]

/-- Claim C8, witness: ingesting the sample chunk into the sample
collection. -/
theorem c8_witness :
    get_token (some "Bearer t") = .ok "t" ∧
    alookup "c1" exState.collections = some exCollection ∧
    (∀ d ∈ [exChunk], ∃ p : Int, alookup "page" d.metadata = some (.int p)) ∧
    ∃ tagged : List Document,
      [exChunk].mapM (tagDocument "t.pdf") = some tagged ∧
      add_document exState "c1" (some "Bearer t") "t.pdf" [exChunk] "f1" =
        .ok ({ exState with chroma := chromaAppend exState.chroma "c1" tagged },
             { file_id := "f1", file_name := "t.pdf", status := "processed" }) ∧
      ∀ d2 ∈ tagged,
        alookup "key" d2.metadata = some (.str "t.pdf") ∧
        ∃ p : Int, alookup "page" d2.metadata = some (.int p) ∧
          alookup "h1" d2.metadata
            = some (.str ("t.pdf" ++ " p" ++ toString (p + 1))) := by
  have hpages : ∀ d ∈ [exChunk], ∃ p : Int,
      alookup "page" d.metadata = some (.int p) := by
    intro d hd
    rw [List.mem_singleton] at hd
    subst hd
    exact ⟨0, rfl⟩
  exact ⟨rfl, rfl, hpages,
    c8_chunks_carry_provenance exState "c1" exCollection (some "Bearer t") "t"
      "t.pdf" "f1" [exChunk] rfl rfl hpages⟩

/-- Claim C9: on an existing collection, the per-document DELETE removes
the whole per-collection vector index — afterwards no chunk of any
ingested file remains under that collection — returns 204, and its outcome
does not depend on which `file_id` was named. -/
theorem c9_delete_document_drops_whole_index (s : AppState) (cid : String)
    (c : CollectionData) (auth : Option String) (tok fid : String)
    (hauth : get_token auth = .ok tok)
    (hcol : alookup cid s.collections = some c) :
    delete_document s cid fid auth =
      .ok { s with chroma := s.chroma.filter fun kv => kv.1 ≠ cid } ∧
    chromaChunks { s with chroma := s.chroma.filter fun kv => kv.1 ≠ cid } cid
      = [] ∧
    ∀ fid2 : String, delete_document s cid fid2 auth
      = delete_document s cid fid auth := by
  refine ⟨?_, ?_, fun fid2 => rfl⟩
  · simp only [delete_document]
    rw [hauth, hcol]
  · have hnone : alookup cid (s.chroma.filter fun kv => kv.1 ≠ cid) = none :=
      alookup_filter_false cid _ _ fun v => by simp
    simp only [chromaChunks]
    rw [hnone]
    rfl

/-- Claim C9, witness at the sample state. -/
theorem c9_witness :
    get_token (some "Bearer t") = .ok "t" ∧
    alookup "c1" exState.collections = some exCollection ∧
    (delete_document exState "c1" "f1" (some "Bearer t") =
      .ok { exState with
              chroma := exState.chroma.filter fun kv => kv.1 ≠ "c1" } ∧
     chromaChunks
        { exState with chroma := exState.chroma.filter fun kv => kv.1 ≠ "c1" }
        "c1" = [] ∧
     ∀ fid2 : String, delete_document exState "c1" fid2 (some "Bearer t")
       = delete_document exState "c1" "f1" (some "Bearer t")) :=
  ⟨rfl, rfl, c9_delete_document_drops_whole_index exState "c1" exCollection
    (some "Bearer t") "t" "f1" rfl rfl⟩

/-- Claim C10: the `total` field of the list response counts all rows of
the collections table regardless of the filters; it equals the filtered
count exactly when every stored collection matches the filters, i.e. when
the filter excludes nothing. -/
theorem c10_total_ignores_filters (s : AppState) (page per_page : Nat)
    (filters : List (String × String)) :
    (list_collections s page per_page filters).total = s.collections.length ∧
    ((list_collections s page per_page filters).total
        = (filteredCollections s filters).length ↔
      ∀ c ∈ s.collections.map Prod.snd, matchesFilters filters c = true) := by
  refine ⟨rfl, ?_⟩
  show s.collections.length = (filteredCollections s filters).length ↔ _
  rw [filteredCollections, ← List.length_map s.collections Prod.snd]
  exact ⟨fun h1 => List.filter_length_eq_length.mp h1.symm,
    fun h1 => (List.filter_length_eq_length.mpr h1).symm⟩

end RagApi
